import Mathlib

/-!
Shallow embedding of `src/circuitmatter/exchange.py` (the `Exchange` MRP
reliability state machine) and proofs about it.

Modelling conventions:
- Python floats from `time.monotonic()` are modelled as rationals (`ℚ`);
  only comparisons and fixed offsets are used by the code.
- `None` becomes `Option.none`; Python exceptions become `Except.error`.
- The session's two exchange registries (`initiator_exchanges`,
  `responder_exchanges`) are dictionaries keyed by exchange id; we track
  their key sets as `Finset ℤ` fields carried inside the exchange state,
  and `dict.pop` becomes `Finset.erase`.
- `session.send(message)` is the external transport primitive; operations
  return the ordered list of messages handed to it.
- Each operation takes the current monotonic time `now : ℚ` explicitly.
-/

namespace CircuitMatter

deriving instance DecidableEq for Except

/-- Constant from exchange.py line 8 (Section 4.12.8). -/
def MRP_MAX_TRANSMISSIONS : Nat := 5

/-- Constant from exchange.py line 11: base number for exponential backoff. -/
def MRP_BACKOFF_BASE : ℚ := 16 / 10

/-- Constant from exchange.py line 14: scaler for random jitter. -/
def MRP_BACKOFF_JITTER : ℚ := 25 / 100

/-- Constant from exchange.py line 17: scaler margin over peer idle interval. -/
def MRP_BACKOFF_MARGIN : ℚ := 11 / 10

/-- Constant from exchange.py line 20: retransmissions before exponential backoff. -/
def MRP_BACKOFF_THRESHOLD : Nat := 1

/-- Constant from exchange.py line 23: wait before a standalone acknowledgement. -/
def MRP_STANDALONE_ACK_TIMEOUT_MS : ℚ := 200

/-- Modelled from the spec (§6): the reserved "secure channel" protocol id,
defined in message.py which is not under src/. Only its identity matters. -/
def ProtocolId.SECURE_CHANNEL : Nat := 0

/-- Modelled from the spec (§6): the reserved standalone-acknowledgement
opcode, defined in protocol.py which is not under src/. -/
def SecureProtocolOpcode.MRP_STANDALONE_ACK : Nat := 16

/-- Modelled from the spec (§6): the exchange-flags bit field with
Initiator, Acknowledgement and Reliability bits (message.py is not under
src/); we model the three bits the exchange code reads and writes. -/
structure ExchangeFlags where
  I : Bool
  A : Bool
  R : Bool
deriving DecidableEq, Repr

/-- Modelled from the spec (§6): a chunked payload exposes an
encode-into-buffer operation returning bytes consumed and a "more chunks
remain" flag (interaction_model.py is not under src/). We model the
payload as its protocol id/opcode plus the list of remaining chunk byte
sizes; encoding consumes the first chunk, bounded by the buffer size. -/
structure ChunkedMessage where
  PROTOCOL_ID : Nat
  PROTOCOL_OPCODE : Nat
  chunks : List Nat
deriving DecidableEq, Repr

/-- Modelled from the spec (§6): `encode_into` writes at most `bufLen`
bytes into the buffer and returns the bytes consumed, advancing the
chunked message past the encoded chunk. -/
def ChunkedMessage.encode_into (c : ChunkedMessage) (bufLen : Nat) :
    Nat × ChunkedMessage :=
  match c.chunks with
  | [] => (0, c)
  | n :: rest => (min n bufLen, { c with chunks := rest })

/-- Modelled from the spec (§6): the "more chunks remain" flag read after
`encode_into`. -/
def ChunkedMessage.MoreChunkedMessages (c : ChunkedMessage) : Bool :=
  !c.chunks.isEmpty

/-- Modelled from the spec (§6): an application payload is either a plain
payload (fixed protocol id/opcode and raw bytes) or a chunked payload. -/
inductive Payload where
  | plain (PROTOCOL_ID : Nat) (PROTOCOL_OPCODE : Nat) (data : List Nat)
  | chunked (c : ChunkedMessage)
deriving DecidableEq, Repr

/-- The payload's declared protocol id (`application_payload.PROTOCOL_ID`). -/
def Payload.PROTOCOL_ID : Payload → Nat
  | .plain pid _ _ => pid
  | .chunked c => c.PROTOCOL_ID

/-- The payload's declared opcode (`application_payload.PROTOCOL_OPCODE`). -/
def Payload.PROTOCOL_OPCODE : Payload → Nat
  | .plain _ opc _ => opc
  | .chunked c => c.PROTOCOL_OPCODE

/-- The `application_payload` field of an outgoing `Message`: either the
payload object passed through unchanged (exchange.py line 92) or the
encoded chunk of a chunked payload, `chunk[:offset]` (line 90), of which
we record the byte length. -/
inductive MsgPayload where
  | raw (p : Payload)
  | chunk (len : Nat)
deriving DecidableEq, Repr

/-- Modelled from the spec (§6): the message envelope (message.py is not
under src/). Fields default to `none`/`false` as in a fresh `Message()`;
`message_counter` is assigned by the session after the exchange hands the
message over, so messages built by `send` leave it `none`. -/
structure Message where
  exchange_flags : ExchangeFlags
  message_counter : Option Nat
  acknowledged_message_counter : Option Nat
  source_node_id : Option Nat
  protocol_id : Option Nat
  protocol_opcode : Option Nat
  exchange_id : Option Int
  application_payload : Option MsgPayload
  duplicate : Bool
deriving DecidableEq, Repr

/-- The state of one `Exchange` (exchange.py lines 27-52), together with
the parts of its session that the exchange itself reads or mutates: the
key sets of the two exchange registries and the session's local node id. -/
structure Exchange where
  initiator : Bool
  exchange_id : Int
  protocols : List Nat
  pending_acknowledgement : Option Nat
  send_standalone_time : Option ℚ
  next_retransmission_time : Option ℚ
  pending_retransmission : Option Message
  pending_payloads : List Payload
  closing : Bool
  initiator_exchanges : Finset Int
  responder_exchanges : Finset Int
  local_node_id : Option Nat
deriving DecidableEq

/-- Deregistration from the session (exchange.py lines 131-134 and
170-173): `pop` the exchange id from the registry matching the
exchange's role. -/
def Exchange.destroy (ex : Exchange) : Exchange :=
  if ex.initiator then
    { ex with initiator_exchanges := ex.initiator_exchanges.erase ex.exchange_id }
  else
    { ex with responder_exchanges := ex.responder_exchanges.erase ex.exchange_id }

/-- Message construction and transmission, exchange.py lines 63-93 (the
body of `send` after the pending-retransmission guard, with the protocol
id and opcode already resolved). Returns the updated exchange and the one
message handed to `session.send`. Note that in Python the message stored
as `pending_retransmission` at line 74 is the same object that keeps
being populated through line 92, so the stored message is the final one. -/
def Exchange.sendBody (ex : Exchange) (now : ℚ) (application_payload : Option Payload)
    (protocol_id : Nat) (protocol_opcode : Nat) (reliable : Bool) :
    Exchange × Message :=
  let ackCounter := ex.pending_acknowledgement
  let ex1 : Exchange :=
    if ex.pending_acknowledgement.isSome then
      { ex with send_standalone_time := none, pending_acknowledgement := none }
    else ex
  let ex2 : Exchange :=
    match application_payload with
    | some (Payload.chunked c) =>
      if (c.encode_into 1200).2.MoreChunkedMessages then
        { ex1 with pending_payloads :=
            Payload.chunked (c.encode_into 1200).2 :: ex1.pending_payloads }
      else ex1
    | _ => ex1
  let payloadField : Option MsgPayload :=
    match application_payload with
    | some (Payload.chunked c) => some (MsgPayload.chunk (c.encode_into 1200).1)
    | some p => some (MsgPayload.raw p)
    | none => none
  let message : Message := {
    exchange_flags := { I := ex.initiator, A := ackCounter.isSome, R := reliable },
    message_counter := none,
    acknowledged_message_counter := ackCounter,
    source_node_id := ex.local_node_id,
    protocol_id := some protocol_id,
    protocol_opcode := some protocol_opcode,
    exchange_id := some ex.exchange_id,
    application_payload := payloadField,
    duplicate := false }
  if reliable then
    ({ ex2 with
       pending_retransmission := some message,
       next_retransmission_time := some (now + 1 / 10) }, message)
  else (ex2, message)

/-- `Exchange.send`, exchange.py lines 54-93. Raising `RuntimeError`
(line 62) becomes `Except.error`; the guard fires before any state
mutation, so the error case leaves the exchange unchanged. If both the
explicit protocol id (resp. opcode) and the payload are absent the Python
code raises `AttributeError` at line 79 (resp. 82); we model that as the
second error case. -/
def Exchange.send (ex : Exchange) (now : ℚ) (application_payload : Option Payload)
    (protocol_id : Option Nat) (protocol_opcode : Option Nat) (reliable : Bool) :
    Except String (Exchange × Message) :=
  if ex.pending_retransmission.isSome then
    Except.error "Cannot send a message while waiting for an ack."
  else
    match (match protocol_id with
           | some p => some p
           | none => application_payload.map Payload.PROTOCOL_ID),
          (match protocol_opcode with
           | some o => some o
           | none => application_payload.map Payload.PROTOCOL_OPCODE) with
    | some pid, some opc =>
      Except.ok (ex.sendBody now application_payload pid opc reliable)
    | _, _ => Except.error "AttributeError"

/-- `Exchange.send_standalone`, exchange.py lines 95-104. With a
retransmission outstanding it re-hands the exact pending message to
`session.send`; otherwise it sends an unreliable standalone
acknowledgement through `send`. The error fallback is unreachable: the
pending retransmission is `none` there and both ids are explicit. -/
def Exchange.send_standalone (ex : Exchange) (now : ℚ) : Exchange × List Message :=
  match ex.pending_retransmission with
  | some pending => (ex, [pending])
  | none =>
    match ex.send now none (some ProtocolId.SECURE_CHANNEL)
        (some SecureProtocolOpcode.MRP_STANDALONE_ACK) false with
    | Except.ok r => (r.1, [r.2])
    | Except.error _ => (ex, [])

/-- `Exchange.queue`, exchange.py lines 106-107. -/
def Exchange.queue (ex : Exchange) (payload : Payload) : Exchange :=
  { ex with pending_payloads := ex.pending_payloads ++ [payload] }

/-- Protocol-id admission check, exchange.py line 136
(`message.protocol_id not in self.protocols`, negated): a missing
protocol id never matches. -/
def Exchange.protocolOk (ex : Exchange) (message : Message) : Bool :=
  match message.protocol_id with
  | some p => ex.protocols.contains p
  | none => false

/-- The wrong-acknowledgement-counter test, exchange.py lines 117-121:
a retransmission is outstanding and the acknowledged counter differs
from the pending message's counter. -/
def Exchange.wrongAckCounter (ex : Exchange) (message : Message) : Bool :=
  match ex.pending_retransmission with
  | some pr => decide (message.acknowledged_message_counter ≠ pr.message_counter)
  | none => false

/-- exchange.py lines 136-161: the part of `receive` after the
acknowledgement-flag processing — protocol admission, reliable-message
handling (Section 4.12.5.2.2) and the final duplicate drop. Returns the
updated exchange, the messages handed to `session.send`, and the drop
flag. -/
def Exchange.receiveBody (ex : Exchange) (now : ℚ) (message : Message) :
    Exchange × List Message × Bool :=
  if ex.protocolOk message = false then (ex, [], true)
  else if message.exchange_flags.R && message.duplicate then
    ((ex.send_standalone now).1, (ex.send_standalone now).2, true)
  else
    let flushed : Exchange × List Message :=
      if ex.pending_acknowledgement.isSome then ex.send_standalone now
      else (ex, [])
    let after : Exchange × List Message :=
      if message.exchange_flags.R then
        ({ flushed.1 with
           pending_acknowledgement := message.message_counter,
           send_standalone_time :=
             some (now + MRP_STANDALONE_ACK_TIMEOUT_MS / 1000) },
         flushed.2)
      else (ex, [])
    (after.1, after.2, message.duplicate)

/-- exchange.py lines 127-134: on accepting an acknowledgement, clear
`pending_retransmission` and `next_retransmission_time`, and destroy the
exchange when it is closing with no queued payloads. -/
def Exchange.clearRetransmission (ex : Exchange) : Exchange :=
  let ex1 : Exchange :=
    { ex with pending_retransmission := none, next_retransmission_time := none }
  if ex1.closing && ex1.pending_payloads.isEmpty then ex1.destroy else ex1

/-- `Exchange.receive`, exchange.py lines 109-161. Returns the updated
exchange, the messages handed to `session.send`, and whether the packet
is dropped (not delivered to the application). -/
def Exchange.receive (ex : Exchange) (now : ℚ) (message : Message) :
    Exchange × List Message × Bool :=
  if message.exchange_flags.A then
    if message.acknowledged_message_counter = none then (ex, [], true)
    else if ex.wrongAckCounter message then (ex, [], true)
    else ex.clearRetransmission.receiveBody now message
  else
    ex.receiveBody now message

/-- `Exchange.close`, exchange.py lines 163-174. -/
def Exchange.close (ex : Exchange) (now : ℚ) : Exchange × List Message :=
  let ex1 : Exchange := { ex with closing := true }
  if ex1.pending_retransmission.isSome then
    ex1.send_standalone now
  else
    (ex1.destroy, [])

/-- `Exchange.resend_pending`, exchange.py lines 176-181. After the two
early-return guards the body is empty: the resend call at line 181 is
commented out in the source (`# self.send_standalone()`), so the
elapsed-deadline branch performs no action either. (When
`pending_retransmission` is set but `next_retransmission_time` is `None`
the Python comparison at line 179 raises `TypeError`; that state is
unreachable because the two fields are set and cleared together.) -/
def Exchange.resend_pending (ex : Exchange) (now : ℚ) : Exchange × List Message :=
  match ex.pending_retransmission with
  | none => (ex, [])
  | some _ =>
    match ex.next_retransmission_time with
    | some t => if now < t then (ex, []) else (ex, [])
    | none => (ex, [])

/-! Derived definitions used by the statements and proofs below. -/

/-- Whether a `send` call succeeded (did not raise). -/
def isOkSend (r : Except String (Exchange × Message)) : Bool :=
  match r with
  | Except.ok _ => true
  | Except.error _ => false

/-- The message that `sendBody` constructs, written out explicitly
(proved equal to `(sendBody ...).2` below). -/
def builtMsg (ex : Exchange) (application_payload : Option Payload)
    (protocol_id protocol_opcode : Nat) (reliable : Bool) : Message := {
  exchange_flags :=
    { I := ex.initiator, A := ex.pending_acknowledgement.isSome, R := reliable },
  message_counter := none,
  acknowledged_message_counter := ex.pending_acknowledgement,
  source_node_id := ex.local_node_id,
  protocol_id := some protocol_id,
  protocol_opcode := some protocol_opcode,
  exchange_id := some ex.exchange_id,
  application_payload :=
    match application_payload with
    | some (Payload.chunked c) => some (MsgPayload.chunk (c.encode_into 1200).1)
    | some p => some (MsgPayload.raw p)
    | none => none,
  duplicate := false }

/-- The invariant of spec §3: `pending_acknowledgement` and
`send_standalone_time` are set and cleared together. -/
def ackInv (ex : Exchange) : Prop :=
  ex.pending_acknowledgement.isSome = ex.send_standalone_time.isSome

/-- Fields of the exchange state other than `pending_acknowledgement` and
`send_standalone_time` agree (used to package preservation lemmas). -/
def sameCore (a b : Exchange) : Prop :=
  a.pending_retransmission = b.pending_retransmission ∧
  a.next_retransmission_time = b.next_retransmission_time ∧
  a.initiator_exchanges = b.initiator_exchanges ∧
  a.responder_exchanges = b.responder_exchanges ∧
  a.closing = b.closing ∧
  a.pending_payloads = b.pending_payloads ∧
  a.protocols = b.protocols ∧
  a.initiator = b.initiator ∧
  a.exchange_id = b.exchange_id ∧
  a.local_node_id = b.local_node_id

/-! Concrete states and messages used as witnesses and counterexamples. -/

/-- A reliably-sent message with counter 10, carrying a piggybacked ack
for counter 1, held as a pending retransmission. -/
def prMsg10 : Message := {
  exchange_flags := { I := true, A := true, R := true },
  message_counter := some 10,
  acknowledged_message_counter := some 1,
  source_node_id := some 3,
  protocol_id := some 0,
  protocol_opcode := some 2,
  exchange_id := some 7,
  application_payload := none,
  duplicate := false }

/-- An idle initiator exchange with id 7 accepting protocol 0. -/
def exBase : Exchange := {
  initiator := true,
  exchange_id := 7,
  protocols := [0],
  pending_acknowledgement := none,
  send_standalone_time := none,
  next_retransmission_time := none,
  pending_retransmission := none,
  pending_payloads := [],
  closing := false,
  initiator_exchanges := {7},
  responder_exchanges := ∅,
  local_node_id := some 3 }

/-- `exBase` with a retransmission of `prMsg10` outstanding. -/
def exPending : Exchange :=
  { exBase with pending_retransmission := some prMsg10,
                next_retransmission_time := some 2 }

/-- `exPending` additionally owing an acknowledgement for counter 5. -/
def exPendingOwed : Exchange :=
  { exPending with pending_acknowledgement := some 5,
                   send_standalone_time := some 1 }

/-- `exBase` owing an acknowledgement for counter 5, nothing in flight. -/
def exOwed : Exchange :=
  { exBase with pending_acknowledgement := some 5,
                send_standalone_time := some 1 }

/-- `exPending` flagged as closing. -/
def exPendingClosing : Exchange := { exPending with closing := true }

/-- An inbound non-duplicate reliable message, counter 6, protocol 0. -/
def mRel6 : Message := {
  exchange_flags := { I := false, A := false, R := true },
  message_counter := some 6,
  acknowledged_message_counter := none,
  source_node_id := some 2,
  protocol_id := some 0,
  protocol_opcode := some 2,
  exchange_id := some 7,
  application_payload := none,
  duplicate := false }

/-- An inbound unreliable message acknowledging counter 10. -/
def mAck10 : Message := {
  exchange_flags := { I := false, A := true, R := false },
  message_counter := some 11,
  acknowledged_message_counter := some 10,
  source_node_id := some 2,
  protocol_id := some 0,
  protocol_opcode := some 16,
  exchange_id := some 7,
  application_payload := none,
  duplicate := false }

/-- A duplicate reliable message whose protocol id 1 the exchange does
not accept. -/
def mDupRel5 : Message :=
  { mRel6 with message_counter := some 5, protocol_id := some 1, duplicate := true }

/-- A duplicate reliable message with an accepted protocol id. -/
def mDupOk : Message :=
  { mRel6 with message_counter := some 5, duplicate := true }

/-- A chunked payload with 2050 bytes left in two chunks. -/
def chunk2000 : ChunkedMessage := { PROTOCOL_ID := 5, PROTOCOL_OPCODE := 9, chunks := [2000, 50] }

/-! Helper lemmas characterizing the operations. -/

theorem sendBody_snd (ex : Exchange) (now : ℚ) (ap : Option Payload)
    (pid opc : Nat) (rel : Bool) :
    (ex.sendBody now ap pid opc rel).2 = builtMsg ex ap pid opc rel := by
  unfold Exchange.sendBody builtMsg
  rcases ap with _ | (⟨a, b, d⟩ | c) <;> cases rel <;>
    by_cases h : ex.pending_acknowledgement.isSome <;> simp [h]

theorem sendBody_fst (ex : Exchange) (now : ℚ) (ap : Option Payload)
    (pid opc : Nat) (rel : Bool) :
    (ex.sendBody now ap pid opc rel).1 =
      { ex with
        send_standalone_time :=
          if ex.pending_acknowledgement.isSome then none else ex.send_standalone_time,
        pending_acknowledgement :=
          if ex.pending_acknowledgement.isSome then none else ex.pending_acknowledgement,
        pending_payloads :=
          match ap with
          | some (Payload.chunked c) =>
            if (c.encode_into 1200).2.MoreChunkedMessages then
              Payload.chunked (c.encode_into 1200).2 :: ex.pending_payloads
            else ex.pending_payloads
          | _ => ex.pending_payloads,
        pending_retransmission :=
          if rel then some (builtMsg ex ap pid opc rel) else ex.pending_retransmission,
        next_retransmission_time :=
          if rel then some (now + 1 / 10) else ex.next_retransmission_time } := by
  obtain ⟨ini, eid, prot, pa, sst, nrt, pr, pp, cl, ie, re, ln⟩ := ex
  rcases ap with _ | (⟨a, b, d⟩ | c)
  · cases rel <;> rcases pa with _ | pc <;> simp [Exchange.sendBody, builtMsg]
  · cases rel <;> rcases pa with _ | pc <;> simp [Exchange.sendBody, builtMsg]
  · cases rel <;> rcases pa with _ | pc <;>
      by_cases h2 : (c.encode_into 1200).2.MoreChunkedMessages <;>
      simp [Exchange.sendBody, builtMsg, h2]

theorem send_pending_some (ex : Exchange) (now : ℚ) (ap : Option Payload)
    (pidO opcO : Option Nat) (rel : Bool) (h : ex.pending_retransmission.isSome) :
    ex.send now ap pidO opcO rel =
      Except.error "Cannot send a message while waiting for an ack." := by
  simp [Exchange.send, h]

theorem send_resolved (ex : Exchange) (now : ℚ) (ap : Option Payload)
    (pid opc : Nat) (rel : Bool) (h : ex.pending_retransmission = none) :
    ex.send now ap (some pid) (some opc) rel =
      Except.ok (ex.sendBody now ap pid opc rel) := by
  simp [Exchange.send, h]

theorem send_payload_some (ex : Exchange) (now : ℚ) (ap : Payload)
    (pidO opcO : Option Nat) (rel : Bool) (h : ex.pending_retransmission = none) :
    ex.send now (some ap) pidO opcO rel =
      Except.ok (ex.sendBody now (some ap)
        (pidO.getD ap.PROTOCOL_ID) (opcO.getD ap.PROTOCOL_OPCODE) rel) := by
  rcases pidO with _ | p <;> rcases opcO with _ | o <;> simp [Exchange.send, h]

theorem send_standalone_eq (ex : Exchange) (now : ℚ) :
    ex.send_standalone now =
      match ex.pending_retransmission with
      | some pending => (ex, [pending])
      | none =>
        ((if ex.pending_acknowledgement.isSome then
            { ex with send_standalone_time := none, pending_acknowledgement := none }
          else ex),
         [builtMsg ex none ProtocolId.SECURE_CHANNEL
            SecureProtocolOpcode.MRP_STANDALONE_ACK false]) := by
  obtain ⟨ini, eid, prot, pa, sst, nrt, pr, pp, cl, ie, re, ln⟩ := ex
  rcases pr with _ | pending
  · rcases pa with _ | pc <;>
      simp [Exchange.send_standalone, Exchange.send, sendBody_fst, sendBody_snd]
  · rfl

theorem ss_fst_cases (ex : Exchange) (now : ℚ) :
    (ex.send_standalone now).1 = ex ∨
    (ex.send_standalone now).1 =
      { ex with send_standalone_time := none, pending_acknowledgement := none } := by
  rw [send_standalone_eq]
  rcases hp : ex.pending_retransmission with _ | pending
  · by_cases ha : ex.pending_acknowledgement.isSome
    · right; simp [ha]
    · left; simp [ha]
  · left; rfl

theorem ss_snd_eq (ex : Exchange) (now : ℚ) :
    (ex.send_standalone now).2 =
      match ex.pending_retransmission with
      | some pending => [pending]
      | none => [builtMsg ex none ProtocolId.SECURE_CHANNEL
          SecureProtocolOpcode.MRP_STANDALONE_ACK false] := by
  rw [send_standalone_eq]
  rcases hp : ex.pending_retransmission with _ | pending <;> simp [hp]

theorem ss_snd_length (ex : Exchange) (now : ℚ) :
    (ex.send_standalone now).2.length = 1 := by
  rw [ss_snd_eq]
  rcases hp : ex.pending_retransmission with _ | pending <;> simp [hp]

theorem ss_ackInv (ex : Exchange) (now : ℚ) (h : ackInv ex) :
    ackInv (ex.send_standalone now).1 := by
  rcases ss_fst_cases ex now with hc | hc <;> rw [hc]
  · exact h
  · rfl

theorem sameCore_refl (ex : Exchange) : sameCore ex ex :=
  ⟨rfl, rfl, rfl, rfl, rfl, rfl, rfl, rfl, rfl, rfl⟩

theorem ss_sameCore (ex : Exchange) (now : ℚ) :
    sameCore (ex.send_standalone now).1 ex := by
  rcases ss_fst_cases ex now with h | h <;> rw [h] <;>
    exact ⟨rfl, rfl, rfl, rfl, rfl, rfl, rfl, rfl, rfl, rfl⟩

theorem rb_sameCore (ex : Exchange) (now : ℚ) (m : Message) :
    sameCore (ex.receiveBody now m).1 ex := by
  simp only [Exchange.receiveBody]
  split_ifs
  · exact sameCore_refl ex
  · exact ss_sameCore ex now
  · exact ss_sameCore ex now
  · exact sameCore_refl ex
  · exact sameCore_refl ex

theorem clearRetransmission_fields (ex : Exchange) :
    ex.clearRetransmission.pending_retransmission = none ∧
    ex.clearRetransmission.next_retransmission_time = none ∧
    ex.clearRetransmission.pending_acknowledgement = ex.pending_acknowledgement ∧
    ex.clearRetransmission.send_standalone_time = ex.send_standalone_time ∧
    ex.clearRetransmission.initiator_exchanges =
      (if ex.closing && ex.pending_payloads.isEmpty then
         (if ex.initiator then ex.initiator_exchanges.erase ex.exchange_id
          else ex.initiator_exchanges)
       else ex.initiator_exchanges) ∧
    ex.clearRetransmission.responder_exchanges =
      (if ex.closing && ex.pending_payloads.isEmpty then
         (if ex.initiator then ex.responder_exchanges
          else ex.responder_exchanges.erase ex.exchange_id)
       else ex.responder_exchanges) ∧
    ex.clearRetransmission.closing = ex.closing ∧
    ex.clearRetransmission.pending_payloads = ex.pending_payloads ∧
    ex.clearRetransmission.protocols = ex.protocols ∧
    ex.clearRetransmission.initiator = ex.initiator ∧
    ex.clearRetransmission.exchange_id = ex.exchange_id ∧
    ex.clearRetransmission.local_node_id = ex.local_node_id := by
  obtain ⟨ini, eid, prot, pa, sst, nrt, pr, pp, cl, ie, re, ln⟩ := ex
  cases ini <;> cases cl <;> rcases pp with _ | ⟨p, ps⟩ <;>
    simp [Exchange.clearRetransmission, Exchange.destroy]

theorem receive_A_missing (ex : Exchange) (now : ℚ) (m : Message)
    (hA : m.exchange_flags.A = true) (hc : m.acknowledged_message_counter = none) :
    ex.receive now m = (ex, [], true) := by
  simp [Exchange.receive, hA, hc]

theorem receive_A_wrong (ex : Exchange) (now : ℚ) (m : Message)
    (hA : m.exchange_flags.A = true) (hc : m.acknowledged_message_counter ≠ none)
    (hw : ex.wrongAckCounter m = true) :
    ex.receive now m = (ex, [], true) := by
  simp [Exchange.receive, hA, hc, hw]

theorem receive_A_clear (ex : Exchange) (now : ℚ) (m : Message)
    (hA : m.exchange_flags.A = true) (hc : m.acknowledged_message_counter ≠ none)
    (hw : ex.wrongAckCounter m = false) :
    ex.receive now m = ex.clearRetransmission.receiveBody now m := by
  simp [Exchange.receive, hA, hc, hw]

theorem receive_A_false (ex : Exchange) (now : ℚ) (m : Message)
    (hA : m.exchange_flags.A = false) :
    ex.receive now m = ex.receiveBody now m := by
  simp [Exchange.receive, hA]

theorem rb_protocol_fail (ex : Exchange) (now : ℚ) (m : Message)
    (h : ex.protocolOk m = false) :
    ex.receiveBody now m = (ex, [], true) := by
  simp [Exchange.receiveBody, h]

theorem rb_dup_rel (ex : Exchange) (now : ℚ) (m : Message)
    (hprot : ex.protocolOk m = true) (hR : m.exchange_flags.R = true)
    (hdup : m.duplicate = true) :
    ex.receiveBody now m =
      ((ex.send_standalone now).1, (ex.send_standalone now).2, true) := by
  simp [Exchange.receiveBody, hprot, hR, hdup]

theorem rb_rel (ex : Exchange) (now : ℚ) (m : Message)
    (hprot : ex.protocolOk m = true) (hR : m.exchange_flags.R = true)
    (hdup : m.duplicate = false) :
    ex.receiveBody now m =
      ({ (if ex.pending_acknowledgement.isSome then (ex.send_standalone now).1 else ex) with
           pending_acknowledgement := m.message_counter,
           send_standalone_time :=
             some (now + MRP_STANDALONE_ACK_TIMEOUT_MS / 1000) },
       (if ex.pending_acknowledgement.isSome then (ex.send_standalone now).2 else []),
       false) := by
  by_cases ha : ex.pending_acknowledgement.isSome <;>
    simp [Exchange.receiveBody, hprot, hR, hdup, ha]

theorem rb_unrel (ex : Exchange) (now : ℚ) (m : Message)
    (hprot : ex.protocolOk m = true) (hR : m.exchange_flags.R = false) :
    ex.receiveBody now m = (ex, [], m.duplicate) := by
  simp [Exchange.receiveBody, hprot, hR]

theorem rb_drop_dup (ex : Exchange) (now : ℚ) (m : Message)
    (hdup : m.duplicate = true) :
    (ex.receiveBody now m).2.2 = true := by
  simp only [Exchange.receiveBody]
  split_ifs <;> simp [hdup]

theorem receive_drop_dup (ex : Exchange) (now : ℚ) (m : Message)
    (hdup : m.duplicate = true) :
    (ex.receive now m).2.2 = true := by
  by_cases hA : m.exchange_flags.A = true
  · by_cases hc : m.acknowledged_message_counter = none
    · rw [receive_A_missing ex now m hA hc]
    · by_cases hw : ex.wrongAckCounter m = true
      · rw [receive_A_wrong ex now m hA hc hw]
      · rw [receive_A_clear ex now m hA hc (by simpa using hw)]
        exact rb_drop_dup _ now m hdup
  · rw [receive_A_false ex now m (by simpa using hA)]
    exact rb_drop_dup ex now m hdup

theorem sendBody_ackInv (ex : Exchange) (now : ℚ) (ap : Option Payload)
    (pid opc : Nat) (rel : Bool) (h : ackInv ex) :
    ackInv (ex.sendBody now ap pid opc rel).1 := by
  rw [sendBody_fst]
  unfold ackInv at h ⊢
  by_cases ha : ex.pending_acknowledgement.isSome <;> simp [ha] at h ⊢
  exact h

theorem rb_ackInv (ex : Exchange) (now : ℚ) (m : Message)
    (h : ackInv ex) (hm : m.message_counter ≠ none) :
    ackInv (ex.receiveBody now m).1 := by
  by_cases hprot : ex.protocolOk m = true
  · by_cases hR : m.exchange_flags.R = true
    · by_cases hdup : m.duplicate = true
      · rw [rb_dup_rel ex now m hprot hR hdup]
        exact ss_ackInv ex now h
      · rw [rb_rel ex now m hprot hR (by simpa using hdup)]
        unfold ackInv
        simp [Option.ne_none_iff_isSome.mp hm]
    · rw [rb_unrel ex now m hprot (by simpa using hR)]
      exact h
  · rw [rb_protocol_fail ex now m (by simpa using hprot)]
    exact h

theorem clearRetransmission_ackInv (ex : Exchange) (h : ackInv ex) :
    ackInv ex.clearRetransmission := by
  unfold ackInv at h ⊢
  rw [(clearRetransmission_fields ex).2.2.1, (clearRetransmission_fields ex).2.2.2.1]
  exact h

theorem resend_pending_noop (ex : Exchange) (now : ℚ) :
    ex.resend_pending now = (ex, []) := by
  unfold Exchange.resend_pending
  rcases ex.pending_retransmission with _ | pending
  · rfl
  · rcases ex.next_retransmission_time with _ | t
    · rfl
    · by_cases h : now < t <;> simp [h]

/-! Claim theorems. -/

/-- C1: while a retransmission is outstanding, every call to `send` fails
loudly (the `RuntimeError` of exchange.py line 62, raised before any state
mutation, so the exchange state is unchanged); after an acknowledgement
matching the pending message's counter is received, clearing
`pending_retransmission`, a reliable send succeeds. -/
theorem claim_C1_send_requires_no_pending_retransmission
    (ex : Exchange) (now now2 : ℚ) (pr m : Message)
    (ap ap2 : Option Payload) (pidO opcO : Option Nat) (rel : Bool) (pid2 opc2 : Nat)
    (hpr : ex.pending_retransmission = some pr)
    (hA : m.exchange_flags.A = true)
    (hc : m.acknowledged_message_counter ≠ none)
    (hmatch : m.acknowledged_message_counter = pr.message_counter) :
    ex.send now ap pidO opcO rel =
      Except.error "Cannot send a message while waiting for an ack." ∧
    isOkSend (((ex.receive now m).1).send now2 ap2 (some pid2) (some opc2) true) = true := by
  have hw : ex.wrongAckCounter m = false := by
    simp [Exchange.wrongAckCounter, hpr, hmatch]
  constructor
  · exact send_pending_some ex now ap pidO opcO rel (by simp [hpr])
  · rw [receive_A_clear ex now m hA hc hw]
    have hnone :
        ((ex.clearRetransmission).receiveBody now m).1.pending_retransmission = none := by
      rw [(rb_sameCore ex.clearRetransmission now m).1]
      exact (clearRetransmission_fields ex).1
    rw [send_resolved _ now2 ap2 pid2 opc2 true hnone]
    rfl

/-- C1 witness: concrete instance of the theorem above. -/
theorem claim_C1_witness :
    exPending.send 0 none none none true =
      Except.error "Cannot send a message while waiting for an ack." ∧
    isOkSend ((exPending.receive 0 mAck10).1.send 1 none (some 0) (some 2) true) = true :=
  claim_C1_send_requires_no_pending_retransmission exPending 0 1 prMsg10 mAck10
    none none none none true 0 2 (by rfl) (by rfl) (by decide) (by rfl)

/-- C2: `resend_pending` never does anything: it is a no-op not only when
no retransmission is outstanding or the deadline has not elapsed, but in
every state — the resend on deadline expiry is commented out in the source
(exchange.py line 181, `# self.send_standalone()`), and no
`retransmit_count` exists, contradicting the spec's §4.5 contract. -/
theorem claim_C2_resend_pending_is_noop (ex : Exchange) (now : ℚ) :
    ex.resend_pending now = (ex, []) :=
  resend_pending_noop ex now

/-- C6: `send_standalone` with a retransmission outstanding hands the
exact pending message to the session's send primitive and changes no
exchange state; otherwise it sends one unreliable, payload-less message
with the reserved secure-channel protocol id and the
standalone-acknowledgement opcode. -/
theorem claim_C6_send_standalone_behaviour (ex : Exchange) (now : ℚ) :
    (match ex.pending_retransmission with
     | some pending => ex.send_standalone now = (ex, [pending])
     | none =>
       (ex.send_standalone now).2.map
         (fun msg => (msg.exchange_flags.R, msg.application_payload,
            msg.protocol_id, msg.protocol_opcode)) =
       [(false, none, some ProtocolId.SECURE_CHANNEL,
         some SecureProtocolOpcode.MRP_STANDALONE_ACK)]) := by
  rcases hp : ex.pending_retransmission with _ | pending
  · simp only [hp]
    rw [ss_snd_eq]
    simp [hp, builtMsg]
  · simp only [hp]
    rw [send_standalone_eq]
    simp [hp]

/-- C7: `close` sets the closing flag; with a retransmission outstanding
it resends the pending message and leaves the registries untouched;
otherwise it emits nothing and removes the exchange id from the registry
matching its initiator role. -/
theorem claim_C7_close (ex : Exchange) (now : ℚ) :
    (ex.close now).1.closing = true ∧
    (match ex.pending_retransmission with
     | some pending => ex.close now = ({ ex with closing := true }, [pending])
     | none =>
       (ex.close now).2 = [] ∧
       (ex.close now).1.initiator_exchanges =
         (if ex.initiator then ex.initiator_exchanges.erase ex.exchange_id
          else ex.initiator_exchanges) ∧
       (ex.close now).1.responder_exchanges =
         (if ex.initiator then ex.responder_exchanges
          else ex.responder_exchanges.erase ex.exchange_id)) := by
  obtain ⟨ini, eid, prot, pa, sst, nrt, pr, pp, cl, ie, re, ln⟩ := ex
  rcases pr with _ | pending
  · cases ini <;> simp [Exchange.close, Exchange.destroy, Exchange.send_standalone]
  · cases ini <;> simp [Exchange.close, Exchange.send_standalone]

/-- C3 counterexample: with a retransmission outstanding (pending message
counter 10 carrying ack 1) and an acknowledgement owed for counter 5, a
non-duplicate reliable message (counter 6) makes `receive` emit only the
resent pending message, whose acknowledged counter is 1 — not the owed
counter 5 — while the owed counter is overwritten with 6. The claim's
"standalone send carrying the currently owed acknowledgement counter ...
for every exchange state including one with a retransmission outstanding"
is therefore false. -/
theorem claim_C3_counterexample :
    exPendingOwed.pending_acknowledgement = some 5 ∧
    mRel6.exchange_flags.R = true ∧
    mRel6.duplicate = false ∧
    exPendingOwed.protocolOk mRel6 = true ∧
    (exPendingOwed.receive 0 mRel6).2.1.map Message.acknowledged_message_counter =
      [some 1] ∧
    (exPendingOwed.receive 0 mRel6).1.pending_acknowledgement = some 6 := by
  decide

/-- C3 amended: on a non-duplicate reliable message (without the
acknowledgement flag, passing the protocol check) while an
acknowledgement is owed, `receive` performs a standalone send before
overwriting `pending_acknowledgement` with the new counter; when no
retransmission is outstanding that send carries the owed counter, but
when a retransmission is outstanding the pending message is resent
instead, carrying its original acknowledgement rather than the owed one. -/
theorem claim_C3_flush_before_overwrite (ex : Exchange) (now : ℚ) (m : Message) (c : Nat)
    (hA : m.exchange_flags.A = false)
    (hR : m.exchange_flags.R = true)
    (hdup : m.duplicate = false)
    (hprot : ex.protocolOk m = true)
    (howed : ex.pending_acknowledgement = some c) :
    (ex.receive now m).2.1 = (ex.send_standalone now).2 ∧
    (ex.receive now m).1.pending_acknowledgement = m.message_counter ∧
    (ex.pending_retransmission = none →
      (ex.send_standalone now).2.map Message.acknowledged_message_counter = [some c]) := by
  rw [receive_A_false ex now m hA, rb_rel ex now m hprot hR hdup]
  refine ⟨?_, ?_, ?_⟩
  · simp [howed]
  · rfl
  · intro hp
    rw [ss_snd_eq]
    simp [hp, builtMsg, howed]

/-- C3 witness: concrete instance of the amended theorem. -/
theorem claim_C3_witness :
    (exOwed.receive 0 mRel6).2.1 = (exOwed.send_standalone 0).2 ∧
    (exOwed.send_standalone 0).2.map Message.acknowledged_message_counter = [some 5] := by
  have h := claim_C3_flush_before_overwrite exOwed 0 mRel6 5 rfl rfl rfl (by decide) rfl
  exact ⟨h.1, h.2.2 rfl⟩

/-- C4: acknowledgement-flag processing of `receive`: a missing
acknowledged counter means the message is dropped with no state change; a
wrong counter while a retransmission is outstanding means the message is
dropped with no state change; otherwise `pending_retransmission` and
`next_retransmission_time` are cleared, the exchange is removed from the
registry matching its role exactly when it is closing with no queued
payloads, and the registries are untouched when payloads remain queued. -/
theorem claim_C4_ack_processing (ex : Exchange) (now : ℚ) (m : Message)
    (hA : m.exchange_flags.A = true) :
    (m.acknowledged_message_counter = none → ex.receive now m = (ex, [], true)) ∧
    (ex.wrongAckCounter m = true → ex.receive now m = (ex, [], true)) ∧
    (m.acknowledged_message_counter ≠ none → ex.wrongAckCounter m = false →
      ((ex.receive now m).1.pending_retransmission = none ∧
       (ex.receive now m).1.next_retransmission_time = none ∧
       (ex.closing = true → ex.pending_payloads = [] →
         (ex.receive now m).1.initiator_exchanges =
           (if ex.initiator then ex.initiator_exchanges.erase ex.exchange_id
            else ex.initiator_exchanges) ∧
         (ex.receive now m).1.responder_exchanges =
           (if ex.initiator then ex.responder_exchanges
            else ex.responder_exchanges.erase ex.exchange_id)) ∧
       (ex.pending_payloads ≠ [] →
         (ex.receive now m).1.initiator_exchanges = ex.initiator_exchanges ∧
         (ex.receive now m).1.responder_exchanges = ex.responder_exchanges))) := by
  refine ⟨?_, ?_, ?_⟩
  · intro hc
    exact receive_A_missing ex now m hA hc
  · intro hw
    by_cases hc : m.acknowledged_message_counter = none
    · exact receive_A_missing ex now m hA hc
    · exact receive_A_wrong ex now m hA hc hw
  · intro hc hw
    rw [receive_A_clear ex now m hA hc hw]
    have hsc := rb_sameCore ex.clearRetransmission now m
    have hcf := clearRetransmission_fields ex
    refine ⟨?_, ?_, ?_, ?_⟩
    · rw [hsc.1]
      exact hcf.1
    · rw [hsc.2.1]
      exact hcf.2.1
    · intro hcl hpp
      constructor
      · rw [hsc.2.2.1, hcf.2.2.2.2.1]
        simp [hcl, hpp]
      · rw [hsc.2.2.2.1, hcf.2.2.2.2.2.1]
        simp [hcl, hpp]
    · intro hpp
      rcases hq : ex.pending_payloads with _ | ⟨p, ps⟩
      · exact absurd hq hpp
      constructor
      · rw [hsc.2.2.1, hcf.2.2.2.2.1]
        simp [hq]
      · rw [hsc.2.2.2.1, hcf.2.2.2.2.2.1]
        simp [hq]

/-- C4 witness: a closing exchange with pending message counter 10 and no
queued payloads receives a matching acknowledgement; the retransmission is
cleared and the exchange is removed from the initiator registry. -/
theorem claim_C4_witness :
    (exPendingClosing.receive 0 mAck10).1.pending_retransmission = none ∧
    (exPendingClosing.receive 0 mAck10).1.initiator_exchanges =
      ({7} : Finset ℤ).erase 7 := by
  have h := (claim_C4_ack_processing exPendingClosing 0 mAck10 rfl).2.2
    (by decide) (by decide)
  exact ⟨h.1, (h.2.2.1 rfl rfl).1⟩

/-- C5 counterexample: a duplicate reliable message whose protocol id the
exchange does not accept is dropped without any standalone
acknowledgement being sent, refuting the claim's unconditional "if the
duplicate also has the reliability flag set, a standalone acknowledgement
is sent immediately before dropping". -/
theorem claim_C5_counterexample :
    mDupRel5.duplicate = true ∧
    mDupRel5.exchange_flags.R = true ∧
    exBase.receive 0 mDupRel5 = (exBase, [], true) := by
  decide

/-- C5 amended: every duplicate inbound message is dropped (`receive`
returns true), so the application never sees the same counter twice; and
when the duplicate has the reliability flag, no acknowledgement flag, and
an accepted protocol id, exactly the output of `send_standalone` (one
message) is emitted immediately before dropping. -/
theorem claim_C5_duplicate_drop (ex : Exchange) (now : ℚ) (m : Message)
    (hdup : m.duplicate = true) :
    (ex.receive now m).2.2 = true ∧
    (m.exchange_flags.A = false → m.exchange_flags.R = true →
      ex.protocolOk m = true →
      (ex.receive now m).2.1 = (ex.send_standalone now).2 ∧
      (ex.send_standalone now).2.length = 1) := by
  refine ⟨receive_drop_dup ex now m hdup, ?_⟩
  intro hA hR hprot
  rw [receive_A_false ex now m hA, rb_dup_rel ex now m hprot hR hdup]
  exact ⟨rfl, ss_snd_length ex now⟩

/-- C5 witness: concrete instance of the amended theorem. -/
theorem claim_C5_witness :
    (exBase.receive 0 mDupOk).2.2 = true ∧
    (exBase.receive 0 mDupOk).2.1 = (exBase.send_standalone 0).2 ∧
    (exBase.send_standalone 0).2.length = 1 := by
  have h := claim_C5_duplicate_drop exBase 0 mDupOk rfl
  exact ⟨h.1, (h.2 rfl rfl (by decide)).1, (h.2 rfl rfl (by decide)).2⟩

theorem encode_into_le (c : ChunkedMessage) (bufLen : Nat) :
    (c.encode_into bufLen).1 ≤ bufLen := by
  rcases hc : c.chunks with _ | ⟨n, rest⟩ <;>
    simp [ChunkedMessage.encode_into, hc]

theorem destroy_ackInv (ex : Exchange) (h : ackInv ex) : ackInv ex.destroy := by
  unfold Exchange.destroy
  split_ifs <;> exact h

theorem send_ackInv (ex : Exchange) (now : ℚ) (ap : Option Payload)
    (pidO opcO : Option Nat) (rel : Bool) (hinv : ackInv ex) :
    (match ex.send now ap pidO opcO rel with
     | Except.ok r => ackInv r.1
     | Except.error _ => ackInv ex) := by
  unfold Exchange.send
  split_ifs with h
  · exact hinv
  · rcases pidO with _ | pid <;> rcases opcO with _ | opc <;> rcases ap with _ | pl <;>
      first
        | exact hinv
        | exact sendBody_ackInv ex now _ _ _ rel hinv

/-- C8: a reliable or unreliable send of a chunked payload places at most
1200 bytes of encoded payload into the outgoing message; when the payload
reports more chunks remain it is re-inserted at the front of
`pending_payloads` (and is not re-queued otherwise); and exactly one
message is handed to the session's send primitive (the single `Message`
of the returned pair). -/
theorem claim_C8_chunked_send (ex : Exchange) (now : ℚ) (c : ChunkedMessage)
    (pidO opcO : Option Nat) (rel : Bool)
    (hpr : ex.pending_retransmission = none) :
    (match ex.send now (some (Payload.chunked c)) pidO opcO rel with
     | Except.ok r =>
       (match r.2.application_payload with
        | some (MsgPayload.chunk len) => len ≤ 1200
        | _ => False) ∧
       r.1.pending_payloads =
         (if (c.encode_into 1200).2.MoreChunkedMessages then
            Payload.chunked (c.encode_into 1200).2 :: ex.pending_payloads
          else ex.pending_payloads)
     | Except.error _e => False) := by
  rw [send_payload_some ex now (Payload.chunked c) pidO opcO rel hpr]
  refine ⟨?_, ?_⟩
  · rw [sendBody_snd]
    exact encode_into_le c 1200
  · rw [sendBody_fst]

/-- C8 witness: concrete instance of the theorem, sending a chunked
payload with 2000 bytes remaining in its first chunk. -/
theorem claim_C8_witness :
    (match exBase.send 0 (some (Payload.chunked chunk2000)) none none true with
     | Except.ok r =>
       (match r.2.application_payload with
        | some (MsgPayload.chunk len) => len ≤ 1200
        | _ => False) ∧
       r.1.pending_payloads =
         (if (chunk2000.encode_into 1200).2.MoreChunkedMessages then
            Payload.chunked (chunk2000.encode_into 1200).2 :: exBase.pending_payloads
          else exBase.pending_payloads)
     | Except.error _e => False) :=
  claim_C8_chunked_send exBase 0 chunk2000 none none true rfl

/-- C9: `pending_acknowledgement` and `send_standalone_time` are both
`none` or both set at the boundary of every operation, provided the
invariant held on entry and the inbound message carries a message counter
(as every message parsed from the wire does). -/
theorem claim_C9_ack_and_timer_paired (ex : Exchange)
    (now nowS nowR nowC nowP : ℚ) (m : Message) (p : Payload)
    (ap : Option Payload) (pidO opcO : Option Nat) (rel : Bool)
    (hinv : ackInv ex) (hm : m.message_counter ≠ none) :
    (match ex.send now ap pidO opcO rel with
     | Except.ok r => ackInv r.1
     | Except.error _ => ackInv ex) ∧
    ackInv (ex.send_standalone nowS).1 ∧
    ackInv (ex.receive nowR m).1 ∧
    ackInv (ex.close nowC).1 ∧
    ackInv (ex.queue p) ∧
    ackInv (ex.resend_pending nowP).1 := by
  refine ⟨send_ackInv ex now ap pidO opcO rel hinv, ss_ackInv ex nowS hinv, ?_, ?_, ?_, ?_⟩
  · by_cases hA : m.exchange_flags.A = true
    · by_cases hc : m.acknowledged_message_counter = none
      · rw [receive_A_missing ex nowR m hA hc]
        exact hinv
      · by_cases hw : ex.wrongAckCounter m = true
        · rw [receive_A_wrong ex nowR m hA hc hw]
          exact hinv
        · rw [receive_A_clear ex nowR m hA hc (by simpa using hw)]
          exact rb_ackInv _ nowR m (clearRetransmission_ackInv ex hinv) hm
    · rw [receive_A_false ex nowR m (by simpa using hA)]
      exact rb_ackInv ex nowR m hinv hm
  · simp only [Exchange.close]
    split_ifs with h
    · exact ss_ackInv _ nowC hinv
    · exact destroy_ackInv _ hinv
  · exact hinv
  · rw [resend_pending_noop ex nowP]
    exact hinv

/-- C9 witness: concrete instance of the invariant theorem. -/
theorem claim_C9_witness :
    (match exBase.send 0 none (some 0) (some 2) true with
     | Except.ok r => ackInv r.1
     | Except.error _ => ackInv exBase) ∧
    ackInv (exBase.send_standalone 0).1 ∧
    ackInv (exBase.receive 0 mRel6).1 ∧
    ackInv (exBase.close 0).1 ∧
    ackInv (exBase.queue (Payload.plain 0 2 [])) ∧
    ackInv (exBase.resend_pending 0).1 :=
  claim_C9_ack_and_timer_paired exBase 0 0 0 0 0 mRel6 (Payload.plain 0 2 [])
    none (some 0) (some 2) true rfl (by decide)

/-- C10: while a retransmission is outstanding, `send` rejects every call
— also unreliable ones — and the only message any operation can emit is
the pending message itself: `send_standalone` and `close` emit exactly
it, `resend_pending` emits nothing, and every message `receive` emits
while the retransmission remains outstanding equals the pending message. -/
theorem claim_C10_only_pending_leaves (ex : Exchange) (now : ℚ) (pr m : Message)
    (ap : Option Payload) (pidO opcO : Option Nat) (rel : Bool)
    (hpr : ex.pending_retransmission = some pr) :
    ex.send now ap pidO opcO rel =
      Except.error "Cannot send a message while waiting for an ack." ∧
    (ex.send_standalone now).2 = [pr] ∧
    (ex.close now).2 = [pr] ∧
    (ex.resend_pending now).2 = [] ∧
    ((ex.receive now m).1.pending_retransmission = some pr →
      (ex.receive now m).2.1.all (fun x => decide (x = pr)) = true) := by
  refine ⟨send_pending_some ex now ap pidO opcO rel (by simp [hpr]), ?_, ?_, ?_, ?_⟩
  · rw [ss_snd_eq]
    simp [hpr]
  · simp [Exchange.close, ss_snd_eq, hpr]
  · rw [resend_pending_noop ex now]
  · intro hstill
    by_cases hA : m.exchange_flags.A = true
    · by_cases hc : m.acknowledged_message_counter = none
      · rw [receive_A_missing ex now m hA hc]
        simp
      · by_cases hw : ex.wrongAckCounter m = true
        · rw [receive_A_wrong ex now m hA hc hw]
          simp
        · exfalso
          rw [receive_A_clear ex now m hA hc (by simpa using hw)] at hstill
          rw [(rb_sameCore _ now m).1, (clearRetransmission_fields ex).1] at hstill
          exact Option.noConfusion hstill
    · rw [receive_A_false ex now m (by simpa using hA)]
      by_cases hprot : ex.protocolOk m = true
      · by_cases hR : m.exchange_flags.R = true
        · by_cases hdup : m.duplicate = true
          · rw [rb_dup_rel ex now m hprot hR hdup]
            simp only [ss_snd_eq, hpr]
            simp
          · rw [rb_rel ex now m hprot hR (by simpa using hdup)]
            by_cases ha : ex.pending_acknowledgement.isSome
            · simp only [ha, if_true, ss_snd_eq, hpr]
              simp
            · simp [ha]
        · rw [rb_unrel ex now m hprot (by simpa using hR)]
          simp
      · rw [rb_protocol_fail ex now m (by simpa using hprot)]
        simp

/-- C10 witness: concrete instance of the theorem. -/
theorem claim_C10_witness :
    exPendingOwed.send 0 none none none true =
      Except.error "Cannot send a message while waiting for an ack." ∧
    (exPendingOwed.send_standalone 0).2 = [prMsg10] ∧
    (exPendingOwed.close 0).2 = [prMsg10] ∧
    (exPendingOwed.resend_pending 0).2 = [] ∧
    (exPendingOwed.receive 0 mRel6).2.1.all (fun x => decide (x = prMsg10)) = true := by
  have h := claim_C10_only_pending_leaves exPendingOwed 0 prMsg10 mRel6
    none none none true rfl
  exact ⟨h.1, h.2.1, h.2.2.1, h.2.2.2.1, h.2.2.2.2 (by decide)⟩

end CircuitMatter
